import Mathlib

/-!
Verification of the freedvtnc2 TCP command server (`freedvtnc2/command_server.py`)
against its natural-language specification.

The development shallowly embeds `CommandServer._process_command` and its
command handlers.  The mutable surface the handlers touch (the modem, the
output/input audio devices and the `argparse` options namespace) is modelled
as an explicit record `ServerState`; Python exceptions raised by collaborator
calls are modelled with `Except String`, the error carrying `str(e)`.
Python `float` values are modelled by `PyFloat`: NaN, signed infinity, or a
finite value kept as an exact decimal sign/mantissa/exponent triple
(finite values are not rounded to binary64; overflow of a parsed literal
to infinity at the binary64 boundary is modelled, as is silent underflow
to a signed zero).
-/

set_option maxRecDepth 16000

namespace FreeDVTNC2

/-- Python `str.isspace` characters, restricted to the ASCII range that the
command protocol uses: space (32), tab (9), newline (10), carriage return
(13), vertical tab (11) and form feed (12). -/
def isPySpace (c : Char) : Bool :=
  c.toNat = 32 || c.toNat = 9 || c.toNat = 10 || c.toNat = 13 ||
  c.toNat = 11 || c.toNat = 12

/-- ASCII uppercase of one character (codes 97–122 map down by 32), the
effect of Python `str.upper` on the ASCII command text. -/
def upChar (c : Char) : Char :=
  if 97 ≤ c.toNat ∧ c.toNat ≤ 122 then Char.ofNat (c.toNat - 32) else c

/-- Python `str.upper` (ASCII scope), as used by `command.upper()` and
`arg.upper()`. -/
def pyUpper (s : String) : String := ⟨s.data.map upChar⟩

/-- Negation of `isPySpace`. -/
def notSpace (c : Char) : Bool := !(isPySpace c)

/-- Python `s.split(None, 1)` on a character list: strip leading whitespace,
take the first maximal non-whitespace token, skip the following whitespace
run, and keep the remainder (trailing whitespace included) as the second
part when it is non-empty. -/
def pySplit1Chars (cs0 : List Char) : List (List Char) :=
  if cs0.dropWhile isPySpace = [] then []
  else if ((cs0.dropWhile isPySpace).dropWhile notSpace).dropWhile isPySpace = [] then
    [(cs0.dropWhile isPySpace).takeWhile notSpace]
  else
    [(cs0.dropWhile isPySpace).takeWhile notSpace,
     ((cs0.dropWhile isPySpace).dropWhile notSpace).dropWhile isPySpace]

/-- Python `command.split(None, 1)` at `String` level. -/
def pySplit1 (s : String) : List String :=
  (pySplit1Chars s.data).map (fun cs => ⟨cs⟩)

/-- Model of a CPython `float` value: NaN, a signed infinity, or a finite
value.  Every value `float(str)` accepts is an exact decimal, so finite
values are kept exactly as `(-1)^neg * mant * 10^exp` with `mant` not
divisible by 10 (and `mant = 0, exp = 0` for a signed zero); they are not
rounded to binary64, except that overflow beyond the binary64 range
yields an infinity and underflow below half the smallest subnormal
yields a (signed) zero, as in CPython. -/
inductive PyFloat where
  | finite (neg : Bool) (mant : Nat) (exp : Int)
  | nan
  | inf (neg : Bool)
deriving DecidableEq, Repr

/-- A `PyFloat` is finite when it is neither NaN nor an infinity. -/
def PyFloat.isFinite : PyFloat → Bool
  | .finite _ _ _ => true
  | _ => false

/-- Range check `'0' ≤ c ≤ '9'`. -/
def isPyDigit (c : Char) : Bool := '0' ≤ c && c ≤ '9'

/-- Numeric value of an ASCII digit. -/
def digitVal (c : Char) : Nat := c.toNat - 48

/-- Consume a run of digits with single underscores allowed between digits
(Python numeric-literal grammar), accumulating value and digit count.
Stops (leaving the offending characters unconsumed) at anything else. -/
def digitsCore : List Char → Nat → Nat → Nat × Nat × List Char
  | [], acc, n => (acc, n, [])
  | '_' :: c :: rest, acc, n =>
    if isPyDigit c then digitsCore rest (acc * 10 + digitVal c) (n + 1)
    else (acc, n, '_' :: c :: rest)
  | ['_'], acc, n => (acc, n, ['_'])
  | c :: rest, acc, n =>
    if isPyDigit c then digitsCore rest (acc * 10 + digitVal c) (n + 1)
    else (acc, n, c :: rest)

/-- A digit group must begin with a digit; returns value, digit count, rest. -/
def parseDigitGroup (cs : List Char) : Option (Nat × Nat × List Char) :=
  match cs with
  | c :: rest => if isPyDigit c then some (digitsCore rest (digitVal c) 1) else none
  | [] => none

/-- Optional sign; returns whether negative, and the rest. -/
def parseSign : List Char → Bool × List Char
  | '+' :: r => (false, r)
  | '-' :: r => (true, r)
  | r => (false, r)

/-- Exponent part `([eE][+-]?digits)` of a float literal, as accepted by
CPython `float`. -/
def parseExp (cs : List Char) : Option (Int × List Char) :=
  match cs with
  | c :: rest =>
    if c = 'e' || c = 'E' then
      let (neg, r2) := parseSign rest
      match parseDigitGroup r2 with
      | some (v, _, r3) => some (if neg then -(v : Int) else (v : Int), r3)
      | none => none
    else none
  | [] => none

/-- Mantissa `digits[.digits] | digits. | .digits`; returns the digits as a
natural number together with the count of fractional digits. -/
def parseMantissa (cs : List Char) : Option (Nat × Nat × List Char) :=
  match parseDigitGroup cs with
  | some (ip, _, rest) =>
    match rest with
    | '.' :: r2 =>
      match parseDigitGroup r2 with
      | some (fp, fn, r3) => some (ip * 10 ^ fn + fp, fn, r3)
      | none => some (ip, 0, r2)
    | _ => some (ip, 0, rest)
  | none =>
    match cs with
    | '.' :: r2 =>
      match parseDigitGroup r2 with
      | some (fp, fn, r3) => some (fp, fn, r3)
      | none => none
    | _ => none

/-- Case-insensitive literal match; on success returns the unconsumed rest. -/
def matchCI : List Char → List Char → Option (List Char)
  | [], cs => some cs
  | _ :: _, [] => none
  | p :: ps, c :: cs => if upChar c = p then matchCI ps cs else none

/-- Strip leading and trailing Python whitespace. -/
def pyStrip (cs : List Char) : List Char :=
  ((cs.dropWhile isPySpace).reverse.dropWhile isPySpace).reverse

/-- Smallest magnitude that rounds to infinity in binary64
(`2 ^ 1024 - 2 ^ 970`, the round-to-nearest-even overflow threshold). -/
def overflowT : Nat := 2 ^ 1024 - 2 ^ 970

/-- Whether `mant * 10 ^ ex` is at or beyond the binary64 overflow
threshold. -/
def decOverflow (mant : Nat) (ex : Int) : Bool :=
  if 0 ≤ ex then overflowT ≤ mant * 10 ^ ex.toNat
  else overflowT * 10 ^ (-ex).toNat ≤ mant

/-- Whether `mant * 10 ^ ex` is at or below half the smallest binary64
subnormal (`2 ^ (-1075)`), where CPython underflows to a signed zero (the
tie rounds to even, that is to zero). -/
def decUnderflow (mant : Nat) (ex : Int) : Bool :=
  if mant = 0 then true
  else if 0 ≤ ex then false
  else mant * 2 ^ 1075 ≤ 10 ^ (-ex).toNat

/-- Strip trailing decimal zeros: `stripTrailingAux fuel m = (m', c)` with
`m = m' * 10 ^ c` and `10 ∤ m'` (given enough fuel).  The fuel makes the
recursion structural. -/
def stripTrailingAux : Nat → Nat → Nat × Nat
  | 0, m => (m, 0)
  | fuel + 1, m =>
    if m ≠ 0 ∧ m % 10 = 0 then
      ((stripTrailingAux fuel (m / 10)).1, (stripTrailingAux fuel (m / 10)).2 + 1)
    else (m, 0)

/-- Strip trailing decimal zeros of `m`, returning the reduced mantissa
and the count of zeros removed. -/
def stripTrailing (m : Nat) : Nat × Nat := stripTrailingAux m m

/-- Build the `PyFloat` for a parsed decimal literal
`(-1)^neg * mant * 10 ^ ex`: overflow to infinity, underflow to signed
zero, otherwise the normalized exact value. -/
def mkPyFloat (neg : Bool) (mant : Nat) (ex : Int) : PyFloat :=
  if decOverflow mant ex then .inf neg
  else if decUnderflow mant ex then .finite neg 0 0
  else .finite neg (stripTrailing mant).1 (ex + ((stripTrailing mant).2 : Int))

/-- CPython `float(str)` on a character list: strip whitespace, optional
sign, then case-insensitively `infinity`, `inf`, `nan`, or a decimal
literal with optional exponent.  `none` models `ValueError`. -/
def pyFloatOfChars (cs0 : List Char) : Option PyFloat :=
  let cs := pyStrip cs0
  let (neg, cs1) := parseSign cs
  match matchCI ['I', 'N', 'F', 'I', 'N', 'I', 'T', 'Y'] cs1 with
  | some [] => some (.inf neg)
  | _ =>
    match matchCI ['I', 'N', 'F'] cs1 with
    | some [] => some (.inf neg)
    | _ =>
      match matchCI ['N', 'A', 'N'] cs1 with
      | some [] => some .nan
      | _ =>
        match parseMantissa cs1 with
        | some (m, fn, rest) =>
          let (e, rest2) :=
            match parseExp rest with
            | some (e, r) => (e, r)
            | none => ((0 : Int), rest)
          if rest2 = [] then some (mkPyFloat neg m (e - (fn : Int)))
          else none
        | none => none

/-- CPython `float(str)` at `String` level. -/
def pyFloat? (s : String) : Option PyFloat := pyFloatOfChars s.data

/-! ### CPython `str(float)`

CPython renders a float as the shortest decimal digit string that
round-trips, positionally when the decimal exponent is in `[-4, 16)` and
in scientific form otherwise.  Because the model keeps parsed finite
values exactly (normalized mantissa without trailing zeros), the shortest
digits of the value are the digits of its mantissa. -/

/-- Left-pad with `'0'` to width `w`. -/
def padZeros (w : Nat) (s : String) : String :=
  ⟨List.replicate (w - s.data.length) '0' ++ s.data⟩

/-- CPython `str()` / f-string interpolation of a float. -/
def PyFloat.pyStr : PyFloat → String
  | .nan => "nan"
  | .inf false => "inf"
  | .inf true => "-inf"
  | .finite neg m ex =>
    if m = 0 then (if neg then "-0.0" else "0.0")
    else
      let sign := if neg then "-" else ""
      let ds := toString m
      let L := ds.data.length
      let E : Int := (L : Int) - 1 + ex
      if -4 ≤ E ∧ E < 16 then
        if 0 ≤ ex then sign ++ toString (m * 10 ^ ex.toNat) ++ ".0"
        else
          if (-ex).toNat < L then
            sign ++ ⟨ds.data.take (L - (-ex).toNat)⟩ ++ "." ++
              ⟨ds.data.drop (L - (-ex).toNat)⟩
          else sign ++ "0." ++ padZeros (-ex).toNat ds
      else
        (sign ++ (if L = 1 then ds else ⟨[ds.data.headD '0']⟩ ++ "." ++ ⟨ds.data.tail⟩))
          ++ "e" ++ (if E < 0 then "-" else "+") ++ padZeros 2 (toString E.natAbs)

/-- CPython `str` of a bool (`options.follow` is serialized through `str`). -/
def pyBoolStr (b : Bool) : String := if b then "True" else "False"

/-- Round `mant * 10 ^ ex * 10` to an integer, ties-to-even (the
non-negative core of CPython `f"{x:.1f}"` formatting). -/
def round1Nat (mant : Nat) (ex : Int) : Nat :=
  if 0 ≤ ex + 1 then mant * 10 ^ (ex + 1).toNat
  else
    if 2 * (mant % 10 ^ (-(ex + 1)).toNat) < 10 ^ (-(ex + 1)).toNat then
      mant / 10 ^ (-(ex + 1)).toNat
    else if 10 ^ (-(ex + 1)).toNat < 2 * (mant % 10 ^ (-(ex + 1)).toNat) then
      mant / 10 ^ (-(ex + 1)).toNat + 1
    else if (mant / 10 ^ (-(ex + 1)).toNat) % 2 = 0 then
      mant / 10 ^ (-(ex + 1)).toNat
    else mant / 10 ^ (-(ex + 1)).toNat + 1

/-- CPython `f"{x:.1f}"` for a float: round to one decimal place,
ties-to-even (`LEVELS` formatting). -/
def fmt1f : PyFloat → String
  | .nan => "nan"
  | .inf false => "inf"
  | .inf true => "-inf"
  | .finite neg m ex =>
    (if neg then "-" else "") ++ toString (round1Nat m ex / 10) ++ "." ++
      toString (round1Nat m ex % 10)

/-! ### Shared device / options state

`ServerState` gathers the mutable surface `_process_command` reads and
writes through its collaborators (`modem_tx`, `output_device`,
`input_device`, `options`).  The collaborators' classes live outside
`command_server.py`; following the spec (§4.4) they are modelled as a
record of the observable control surface, with `Option String` /
`Except String` fields injecting the exceptions a call may raise (the
string is `str(e)`). -/

structure ServerState where
  /-- `modem_tx.modem.modem_name`, the current mode name. -/
  modem_name : String
  /-- `modem_tx.modem.sample_rate` (used only by the PTT test tone). -/
  sample_rate : Nat
  /-- `self.valid_modes`, the names of the `Modems` enum members. -/
  valid_modes : List String
  /-- Exception raised by `modem_tx.set_mode`, when any (`none` = the call
  succeeds and makes its argument the current `modem_name`). -/
  set_mode_exn : Option String
  /-- `options.mode`. -/
  options_mode : String
  /-- `options.output_volume`. -/
  output_volume : PyFloat
  /-- `options.follow`. -/
  follow : Bool
  /-- `output_device.db`, the output gain in dB. -/
  output_db : PyFloat
  /-- `output_device.ptt` when the attribute exists (`none` = absent, so
  `getattr(..., 'ptt', False)` yields `False`). -/
  ptt : Option Bool
  /-- `output_device.inhibit` when the attribute exists (`none` = absent). -/
  inhibit : Option Bool
  /-- Exception raised by reading `input_device.input_level`, when any. -/
  input_level_exn : Option String
  /-- The value of `input_device.input_level` when reading it succeeds. -/
  input_level : PyFloat
  /-- Exception raised by the PTT-test tone generation or
  `output_device.write_raw`, when any. -/
  write_raw_exn : Option String
  /-- Exception raised by `output_device.clear()`, when any. -/
  clear_exn : Option String
  /-- Whether `output_device.clear()` has performed its internal clear. -/
  device_cleared : Bool
  /-- `output_device.send_queue`, the pending transmit frames (abstract). -/
  send_queue : List Nat
  /-- Exception raised by opening/writing the config file, when any. -/
  save_exn : Option String
  /-- `Path.home()`. -/
  home : String
  /-- The attributes of `vars(options)` other than `mode`, `output_volume`
  and `follow`, as `(name, str(value))` pairs with `none` for `None`.
  Defined outside `command_server.py`; abstract here. -/
  options_extra : List (String × Option String)
  /-- The config file written by SAVE, when one has been written:
  `(path, contents)`. -/
  saved_file : Option (String × String)
deriving DecidableEq, Repr

/-- Python `", ".join(valid_modes)`. -/
def joinModes (ms : List String) : String := String.intercalate ", " ms

/-- Handler `_cmd_mode` (`command_server.py:176`): empty argument queries the
current mode; otherwise the uppercased argument must be a member of
`valid_modes`, and on success `modem_tx.set_mode` (which may raise) and
`options.mode` are updated. -/
def cmdMode (s : ServerState) (arg : String) : Except String (String × ServerState) :=
  if arg = "" then .ok ("OK MODE " ++ s.modem_name, s)
  else if pyUpper arg ∉ s.valid_modes then
    .ok ("ERROR Invalid mode. Valid: " ++ joinModes s.valid_modes, s)
  else
    match s.set_mode_exn with
    | some e => .error e
    | none =>
      .ok ("OK MODE " ++ pyUpper arg,
           { s with modem_name := pyUpper arg, options_mode := pyUpper arg })

/-- Handler `_cmd_volume` (`command_server.py:191`): empty argument queries
`options.output_volume`; otherwise `float(arg)` is parsed — on
`ValueError` a fixed error message, on success `output_device.db` and
`options.output_volume` are both set and the parsed value is echoed. -/
def cmdVolume (s : ServerState) (arg : String) : Except String (String × ServerState) :=
  if arg = "" then .ok ("OK VOLUME " ++ s.output_volume.pyStr, s)
  else
    match pyFloat? arg with
    | some v =>
      .ok ("OK VOLUME " ++ v.pyStr,
           { s with output_db := v, output_volume := v })
    | none => .ok ("ERROR Invalid volume (must be number in dB)", s)

/-- Handler `_cmd_follow` (`command_server.py:206`). -/
def cmdFollow (s : ServerState) (arg : String) : Except String (String × ServerState) :=
  if arg = "" then
    .ok ("OK FOLLOW " ++ (if s.follow then "ON" else "OFF"), s)
  else if pyUpper arg = "ON" then .ok ("OK FOLLOW ON", { s with follow := true })
  else if pyUpper arg = "OFF" then .ok ("OK FOLLOW OFF", { s with follow := false })
  else .ok ("ERROR Invalid follow state. Use: ON or OFF", s)

/-- Python `getattr(output_device, attr, False)`. -/
def getattrBool : Option Bool → Bool
  | none => false
  | some b => b

/-- Handler `_cmd_status` (`command_server.py:225`). -/
def cmdStatus (s : ServerState) : Except String (String × ServerState) :=
  .ok ("OK STATUS MODE=" ++ s.modem_name
        ++ " VOLUME=" ++ s.output_volume.pyStr
        ++ " FOLLOW=" ++ (if s.follow then "ON" else "OFF")
        ++ " PTT=" ++ (if getattrBool s.ptt then "ON" else "OFF")
        ++ " CHANNEL=" ++ (if getattrBool s.inhibit then "BUSY" else "CLEAR"), s)

/-- Handler `_cmd_levels` (`command_server.py:235`): its internal `try` turns a
read failure into an error response, never a raised exception. -/
def cmdLevels (s : ServerState) : Except String (String × ServerState) :=
  match s.input_level_exn with
  | none => .ok ("OK LEVELS RX=" ++ fmt1f s.input_level, s)
  | some e => .ok ("ERROR Could not read levels: " ++ e, s)

/-- Handler `_cmd_ptt_test` (`command_server.py:243`): tone generation and
`write_raw` are collaborator calls; any exception is caught internally. -/
def cmdPttTest (s : ServerState) : Except String (String × ServerState) :=
  match s.write_raw_exn with
  | some e => .ok ("ERROR PTT test failed: " ++ e, s)
  | none => .ok ("OK PTT TEST started", s)

/-- Handler `_cmd_clear` (`command_server.py:261`), sequential view:
`output_device.clear()` (which may raise), then, holding
`send_queue_lock`, `send_queue = []`.  The fine-grained interleaved view
is `clearScript` below. -/
def cmdClear (s : ServerState) : Except String (String × ServerState) :=
  match s.clear_exn with
  | some e => .ok ("ERROR Clear failed: " ++ e, s)
  | none =>
    .ok ("OK CLEAR", { s with device_cleared := true, send_queue := [] })

/-- The items of `vars(options)`: the three attributes the handlers mutate,
plus the remaining startup attributes (order within the namespace is not
relied upon by any claim).  Values are their `str()` images, `none` for
`None`. -/
def optionsItems (s : ServerState) : List (String × Option String) :=
  ("mode", some s.options_mode)
    :: ("output_volume", some s.output_volume.pyStr)
    :: ("follow", some (pyBoolStr s.follow))
    :: s.options_extra

/-- Python `key.replace("_", "-")`. -/
def hyphenate (k : String) : String :=
  ⟨k.data.map (fun c => if c = '_' then '-' else c)⟩

/-- One serialized config line, as `configargparse`'s
`DefaultConfigFileParser.serialize` writes it (`key = value`). -/
def configLine (kv : String × Option String) : String :=
  hyphenate kv.1 ++ " = " ++ (match kv.2 with | some v => v | none => "")

/-- The lines of the config file `_cmd_save` writes: every item of
`vars(options)` whose key is not `"c"` (the config-file-path option),
hyphenated key and stringified value. -/
def serializedLines (s : ServerState) : List String :=
  ((optionsItems s).filter (fun kv => kv.1 ≠ "c")).map configLine

/-- Python `str(Path.home() / ".freedvtnc2.conf")`. -/
def savePath (s : ServerState) : String := s.home ++ "/.freedvtnc2.conf"

/-- The full text `_cmd_save` writes: the serialized lines, each
newline-terminated. -/
def savedContents (s : ServerState) : String :=
  String.join ((serializedLines s).map (fun l => l ++ "\n"))

/-- Handler `_cmd_save` (`command_server.py:272`): open/write failures are caught
internally; on success the serialization is written and the path echoed. -/
def cmdSave (s : ServerState) : Except String (String × ServerState) :=
  match s.save_exn with
  | some e => .ok ("ERROR Save failed: " ++ e, s)
  | none =>
    .ok ("OK SAVE " ++ savePath s,
         { s with saved_file := some (savePath s, savedContents s) })

/-- The dispatch table of `_process_command` (`command_server.py:139`):
`cmd` and `arg` are the two parts of the uppercased line.  `.error`
models an exception escaping a handler into the outer `except`. -/
def dispatch (s : ServerState) (cmd arg : String) : Except String (String × ServerState) :=
  if cmd = "PING" then .ok ("OK PONG", s)
  else if cmd = "MODE" then cmdMode s arg
  else if cmd = "VOLUME" then cmdVolume s arg
  else if cmd = "FOLLOW" then cmdFollow s arg
  else if cmd = "STATUS" then cmdStatus s
  else if cmd = "LEVELS" then cmdLevels s
  else if cmd = "PTT" then
    if arg = "TEST" then cmdPttTest s
    else .ok ("ERROR Unknown PTT command. Use: PTT TEST", s)
  else if cmd = "CLEAR" then cmdClear s
  else if cmd = "SAVE" then cmdSave s
  else .ok ("ERROR Unknown command: " ++ cmd, s)

/-- Python `arg = parts[1] if len(parts) > 1 else ""`. -/
def argFromRest : List String → String
  | a :: _ => a
  | [] => ""

/-- Dispatcher `_process_command` (`command_server.py:130`): uppercase the whole line,
split it on the first whitespace run (`split(None, 1)`), dispatch, and
convert any exception escaping a handler into `ERROR str(e)`. -/
def processCommand (s : ServerState) (command : String) : String × ServerState :=
  match pySplit1 (pyUpper command) with
  | [] => ("ERROR Empty command", s)
  | cmd :: rest =>
    match dispatch s cmd (argFromRest rest) with
    | .ok r => r
    | .error e => ("ERROR " ++ e, s)

/-- The verb `_process_command` dispatches on for a given line
(`parts[0]` of the uppercased split; `""` when the line is all
whitespace). -/
def verbOf (line : String) : String :=
  match pySplit1 (pyUpper line) with
  | v :: _ => v
  | [] => ""

/-- The argument `_process_command` hands to the dispatched handler. -/
def argOf (line : String) : String :=
  match pySplit1 (pyUpper line) with
  | _ :: rest => argFromRest rest
  | [] => ""

/-- The verb position of the raw, un-uppercased line. -/
def rawVerbOf (line : String) : String :=
  match pySplit1 line with
  | v :: _ => v
  | [] => ""

/-- The argument position of the raw, un-uppercased line: the text the
client actually sent after the verb. -/
def rawArgOf (line : String) : String :=
  match pySplit1 line with
  | _ :: rest => argFromRest rest
  | [] => ""

/-! ### Fine-grained model of the clear operation for the atomicity claim

`_cmd_clear`'s success path is the statement sequence

    self.output_device.clear()
    with self.output_device.send_queue_lock:
        self.output_device.send_queue = []

Each statement is one atomic step on the device state visible to other
threads; a concurrent reader may observe the state after any prefix of the
script (and may itself take the lock whenever `lock_held` is false). -/

/-- The device state a concurrent thread can observe while `_cmd_clear`
runs. -/
structure DeviceView where
  /-- The modem-internal buffered state cleared by `output_device.clear()`. -/
  device_cleared : Bool
  /-- `output_device.send_queue`. -/
  send_queue : List Nat
  /-- Whether `_cmd_clear`'s thread holds `send_queue_lock`. -/
  lock_held : Bool
deriving DecidableEq, Repr

/-- One statement of `_cmd_clear`'s success path. -/
inductive ClearStep where
  | callClear
  | acquire
  | emptyQueue
  | release
deriving DecidableEq, Repr

/-- The statement sequence of `_cmd_clear`'s success path, in program
order: the internal clear happens before the lock is taken. -/
def clearScript : List ClearStep :=
  [ClearStep.callClear, ClearStep.acquire, ClearStep.emptyQueue, ClearStep.release]

/-- Effect of one `_cmd_clear` statement on the observable device state. -/
def stepClear (d : DeviceView) : ClearStep → DeviceView
  | .callClear => { d with device_cleared := true }
  | .acquire => { d with lock_held := true }
  | .emptyQueue => { d with send_queue := [] }
  | .release => { d with lock_held := false }

/-- Run a statement sequence from a device state. -/
def runClear (d : DeviceView) (steps : List ClearStep) : DeviceView :=
  steps.foldl stepClear d

/-! ### Lemmas about uppercasing and splitting -/

theorem charOfNat_toNat {n : Nat} (h : n.isValidChar) : (Char.ofNat n).toNat = n := by
  unfold Char.ofNat
  rw [dif_pos h]
  rfl

theorem upChar_toNat (c : Char) :
    (upChar c).toNat =
      if 97 ≤ c.toNat ∧ c.toNat ≤ 122 then c.toNat - 32 else c.toNat := by
  unfold upChar
  split_ifs with h
  · have hv : (c.toNat - 32).isValidChar := by
      unfold Nat.isValidChar
      omega
    exact charOfNat_toNat hv
  · rfl

theorem upChar_eq_self {c : Char} (h : ¬(97 ≤ c.toNat ∧ c.toNat ≤ 122)) :
    upChar c = c := by
  unfold upChar
  rw [if_neg h]

theorem upChar_idem (c : Char) : upChar (upChar c) = upChar c := by
  by_cases h : 97 ≤ c.toNat ∧ c.toNat ≤ 122
  · apply upChar_eq_self
    rw [upChar_toNat, if_pos h]
    omega
  · rw [upChar_eq_self h]
    exact upChar_eq_self h

theorem isPySpace_upChar (c : Char) : isPySpace (upChar c) = isPySpace c := by
  have ht := upChar_toNat c
  unfold isPySpace
  rw [Bool.eq_iff_iff]
  simp only [Bool.or_eq_true, decide_eq_true_eq]
  by_cases h : 97 ≤ c.toNat ∧ c.toNat ≤ 122
  · rw [ht, if_pos h]
    omega
  · rw [ht, if_neg h]

theorem notSpace_upChar (c : Char) : notSpace (upChar c) = notSpace c := by
  unfold notSpace; rw [isPySpace_upChar]

theorem isPySpace_comp_upChar : isPySpace ∘ upChar = isPySpace :=
  funext isPySpace_upChar

theorem notSpace_comp_upChar : notSpace ∘ upChar = notSpace :=
  funext notSpace_upChar

theorem pyUpper_data (s : String) : (pyUpper s).data = s.data.map upChar := rfl

theorem pyUpper_idem (s : String) : pyUpper (pyUpper s) = pyUpper s := by
  refine congrArg String.mk ?_
  show (s.data.map upChar).map upChar = s.data.map upChar
  rw [List.map_map]
  exact List.map_congr_left (fun a _ => upChar_idem a)

theorem pySplit1Chars_map (cs : List Char) :
    pySplit1Chars (cs.map upChar) = (pySplit1Chars cs).map (List.map upChar) := by
  unfold pySplit1Chars
  rw [List.dropWhile_map, isPySpace_comp_upChar, List.dropWhile_map,
      notSpace_comp_upChar, List.dropWhile_map, isPySpace_comp_upChar,
      List.takeWhile_map, notSpace_comp_upChar]
  by_cases h1 : cs.dropWhile isPySpace = [] <;>
    by_cases h2 : ((cs.dropWhile isPySpace).dropWhile notSpace).dropWhile isPySpace = [] <;>
      simp [h1, h2]

theorem pySplit1_pyUpper (s : String) :
    pySplit1 (pyUpper s) = (pySplit1 s).map pyUpper := by
  unfold pySplit1
  rw [pyUpper_data, pySplit1Chars_map, List.map_map, List.map_map]
  rfl

/-! ### Response shape -/

/-- The wire invariant on a response line: it begins with `OK` or with
`ERROR`. -/
def respShape (r : String) : Bool :=
  "OK".data.isPrefixOf r.data || "ERROR".data.isPrefixOf r.data

theorem isPrefixOf_ex {l₁ l₂ : List Char} (h : l₁.isPrefixOf l₂ = true) :
    ∃ t, l₂ = l₁ ++ t := by
  induction l₁ generalizing l₂ with
  | nil => exact ⟨l₂, rfl⟩
  | cons a l ih =>
    cases l₂ with
    | nil => simp [List.isPrefixOf] at h
    | cons b m =>
      simp only [List.isPrefixOf, Bool.and_eq_true, beq_iff_eq] at h
      obtain ⟨t, ht⟩ := ih h.2
      exact ⟨t, by rw [h.1, ht, List.cons_append]⟩

theorem isPrefixOf_append (l₁ t : List Char) : l₁.isPrefixOf (l₁ ++ t) = true := by
  induction l₁ with
  | nil => cases t <;> rfl
  | cons a l ih => simp [List.isPrefixOf, ih]

theorem respShape_iff (r : String) :
    respShape r = true ↔ (∃ t, r = "OK" ++ t) ∨ (∃ t, r = "ERROR" ++ t) := by
  unfold respShape
  rw [Bool.or_eq_true]
  constructor
  · rintro (h | h)
    · obtain ⟨t, ht⟩ := isPrefixOf_ex h
      refine Or.inl ⟨⟨t⟩, ?_⟩
      apply String.ext
      rw [String.data_append]
      exact ht
    · obtain ⟨t, ht⟩ := isPrefixOf_ex h
      refine Or.inr ⟨⟨t⟩, ?_⟩
      apply String.ext
      rw [String.data_append]
      exact ht
  · rintro (⟨t, rfl⟩ | ⟨t, rfl⟩)
    · exact Or.inl (by rw [String.data_append]; exact isPrefixOf_append _ _)
    · exact Or.inr (by rw [String.data_append]; exact isPrefixOf_append _ _)

theorem cmdMode_ok_shape (s : ServerState) (a : String)
    {r : String × ServerState} (h : cmdMode s a = .ok r) : respShape r.1 = true := by
  unfold cmdMode at h
  repeat' split at h
  all_goals first
    | exact Except.noConfusion h
    | (injection h with h; subst h; rfl)

theorem cmdVolume_ok_shape (s : ServerState) (a : String)
    {r : String × ServerState} (h : cmdVolume s a = .ok r) : respShape r.1 = true := by
  unfold cmdVolume at h
  repeat' split at h
  all_goals first
    | exact Except.noConfusion h
    | (injection h with h; subst h; rfl)

theorem cmdFollow_ok_shape (s : ServerState) (a : String)
    {r : String × ServerState} (h : cmdFollow s a = .ok r) : respShape r.1 = true := by
  unfold cmdFollow at h
  repeat' split at h
  all_goals first
    | exact Except.noConfusion h
    | (injection h with h; subst h; rfl)

theorem cmdStatus_ok_shape (s : ServerState)
    {r : String × ServerState} (h : cmdStatus s = .ok r) : respShape r.1 = true := by
  unfold cmdStatus at h
  injection h with h
  subst h
  rfl

theorem cmdLevels_ok_shape (s : ServerState)
    {r : String × ServerState} (h : cmdLevels s = .ok r) : respShape r.1 = true := by
  unfold cmdLevels at h
  repeat' split at h
  all_goals first
    | exact Except.noConfusion h
    | (injection h with h; subst h; rfl)

theorem cmdPttTest_ok_shape (s : ServerState)
    {r : String × ServerState} (h : cmdPttTest s = .ok r) : respShape r.1 = true := by
  unfold cmdPttTest at h
  repeat' split at h
  all_goals first
    | exact Except.noConfusion h
    | (injection h with h; subst h; rfl)

theorem cmdClear_ok_shape (s : ServerState)
    {r : String × ServerState} (h : cmdClear s = .ok r) : respShape r.1 = true := by
  unfold cmdClear at h
  repeat' split at h
  all_goals first
    | exact Except.noConfusion h
    | (injection h with h; subst h; rfl)

theorem cmdSave_ok_shape (s : ServerState)
    {r : String × ServerState} (h : cmdSave s = .ok r) : respShape r.1 = true := by
  unfold cmdSave at h
  repeat' split at h
  all_goals first
    | exact Except.noConfusion h
    | (injection h with h; subst h; rfl)

theorem dispatch_ok_shape (s : ServerState) (c a : String)
    {r : String × ServerState} (h : dispatch s c a = .ok r) :
    respShape r.1 = true := by
  unfold dispatch at h
  repeat' split at h
  all_goals first
    | exact Except.noConfusion h
    | (injection h with h; subst h; rfl)
    | exact cmdMode_ok_shape _ _ h
    | exact cmdVolume_ok_shape _ _ h
    | exact cmdFollow_ok_shape _ _ h
    | exact cmdStatus_ok_shape _ h
    | exact cmdLevels_ok_shape _ h
    | exact cmdPttTest_ok_shape _ h
    | exact cmdClear_ok_shape _ h
    | exact cmdSave_ok_shape _ h

/-- A concrete collaborator state used by the witness and counterexample
theorems: two valid modes, no optional PTT/inhibit attributes, one queued
frame, no injected collaborator failures. -/
def sampleState : ServerState where
  modem_name := "DATAC1"
  sample_rate := 8000
  valid_modes := ["DATAC1", "DATAC3"]
  set_mode_exn := none
  options_mode := "DATAC1"
  output_volume := .finite false 0 0
  follow := false
  output_db := .finite false 0 0
  ptt := none
  inhibit := none
  input_level_exn := none
  input_level := .finite false 0 0
  write_raw_exn := none
  clear_exn := none
  device_cleared := false
  send_queue := [7]
  save_exn := none
  home := "/home/op"
  options_extra := [("c", some "/home/op/other.conf"), ("callsign", some "N0CALL"),
                    ("log_level", none)]
  saved_file := none

/-! ### Claims -/

/-- Claim C1: for every input line and every collaborator state,
`_process_command` returns exactly one response string beginning with `OK`
or with `ERROR`, and any exception an executing handler raises is
converted into an `ERROR` response carrying that exception's message
(`str(e)`), never propagated. -/
theorem claim_C1_one_response_and_exception_conversion
    (s : ServerState) (line : String) :
    ((∃ t, (processCommand s line).1 = "OK" ++ t) ∨
     (∃ t, (processCommand s line).1 = "ERROR" ++ t)) ∧
    (∀ e, dispatch s (verbOf line) (argOf line) = .error e →
      (processCommand s line).1 = "ERROR " ++ e) := by
  unfold processCommand verbOf argOf
  rcases hsp : pySplit1 (pyUpper line) with _ | ⟨c, rest⟩
  · refine ⟨Or.inr ⟨" Empty command", rfl⟩, ?_⟩
    intro e he
    rw [show dispatch s "" "" = Except.ok ("ERROR Unknown command: " ++ "", s) from rfl]
      at he
    exact Except.noConfusion he
  · rcases hd : dispatch s c (argFromRest rest) with e | r
    · refine ⟨?_, ?_⟩
      · simp only [hd]
        exact Or.inr ⟨" " ++ e, String.append_assoc "ERROR" " " e⟩
      · intro e2 he2
        injection he2 with he2
        subst he2
        simp only [hd]
    · refine ⟨?_, ?_⟩
      · simp only [hd]
        exact (respShape_iff r.1).mp (dispatch_ok_shape s c (argFromRest rest) hd)
      · intro e2 he2
        exact Except.noConfusion he2

/-- Witness for C1 at a concrete input: with `set_mode_exn = some "boom"`
injected into the modem collaborator, the line `mode datac3` makes the
handler raise, and the dispatcher converts the exception into
`ERROR boom`. -/
theorem claim_C1_witness :
    (processCommand { sampleState with set_mode_exn := some "boom" }
        "mode datac3").1 = "ERROR " ++ "boom" :=
  (claim_C1_one_response_and_exception_conversion
      { sampleState with set_mode_exn := some "boom" } "mode datac3").2
    "boom" (by rfl)

/-- Claim C10: `_process_command` is invariant under uppercasing the whole
input line, because `command.upper()` is applied to the entire line (verb
and argument alike) before parsing. -/
theorem claim_C10_case_invariance (s : ServerState) (line : String) :
    processCommand s line = processCommand s (pyUpper line) := by
  unfold processCommand
  rw [pyUpper_idem]

/-- Claim C3 counterexample: the argument is not passed through unmodified
nor echoed verbatim — `FOLLOW on` is answered `OK FOLLOW ON`, not
`OK FOLLOW on`, because the whole line is uppercased before parsing. -/
theorem claim_C3_counterexample :
    (processCommand sampleState "FOLLOW on").1 = "OK FOLLOW ON" ∧
    (processCommand sampleState "FOLLOW on").1 ≠ "OK FOLLOW on" := by
  constructor
  · decide
  · decide

/-- Claim C3 (amended): the argument is split from the verb on the first
run of whitespace, but the whole line — argument included — is uppercased
before parsing: parsing the uppercased line yields exactly the uppercase
image of the parts of the raw line, so the argument each handler receives
(and echoes, where applicable) is the uppercased form of what the client
sent, not the verbatim text. -/
theorem claim_C3_amended_split_and_uppercase (line : String) :
    pySplit1 (pyUpper line) = (pySplit1 line).map pyUpper ∧
    verbOf line = pyUpper (rawVerbOf line) ∧
    argOf line = pyUpper (rawArgOf line) := by
  refine ⟨pySplit1_pyUpper line, ?_, ?_⟩
  · unfold verbOf rawVerbOf
    rw [pySplit1_pyUpper line]
    rcases pySplit1 line with _ | ⟨v, rest⟩
    · rfl
    · rfl
  · unfold argOf rawArgOf
    rw [pySplit1_pyUpper line]
    rcases pySplit1 line with _ | ⟨v, rest⟩
    · rfl
    · rcases rest with _ | ⟨a, rest2⟩
      · rfl
      · rfl

/-- Claim C2 counterexample: in `_cmd_clear` the internal
`output_device.clear()` runs before `send_queue_lock` is taken, so after
the first statement of the script the internal clear has happened, the
transmit queue is still populated, and the lock is free — a concurrent
reader (even a lock-respecting one) observing at that point sees a state
after the internal clear but before the queue has been emptied. -/
theorem claim_C2_counterexample :
    clearScript.take 1 = [ClearStep.callClear] ∧
    (runClear ⟨false, [7], false⟩ [ClearStep.callClear]).device_cleared = true ∧
    (runClear ⟨false, [7], false⟩ [ClearStep.callClear]).send_queue = [7] ∧
    (runClear ⟨false, [7], false⟩ [ClearStep.callClear]).lock_held = false :=
  ⟨rfl, rfl, rfl, rfl⟩

/-- Claim C2 (amended): the transmit queue itself is emptied only while
`send_queue_lock` is held — the lock is held at the program point where
the queue assignment executes, no other statement of `_cmd_clear` touches
the queue, and the completed clear leaves the queue empty — but the
combined operation is not atomic, because the internal clear precedes
taking the lock (see the counterexample). -/
theorem claim_C2_amended_queue_emptied_under_lock (d : DeviceView) :
    (runClear d (clearScript.take 2)).lock_held = true ∧
    (runClear d clearScript).send_queue = [] ∧
    (runClear d clearScript).device_cleared = true ∧
    (∀ (d2 : DeviceView) (st : ClearStep), st ≠ ClearStep.emptyQueue →
       (stepClear d2 st).send_queue = d2.send_queue) := by
  refine ⟨rfl, rfl, rfl, ?_⟩
  intro d2 st hst
  cases st
  · rfl
  · rfl
  · exact absurd rfl hst
  · rfl

/-- Witness for the amended C2 at a concrete device state. -/
theorem claim_C2_amended_witness :
    (runClear ⟨false, [7], false⟩ (clearScript.take 2)).lock_held = true ∧
    (stepClear ⟨true, [7], true⟩ ClearStep.callClear).send_queue = [7] :=
  ⟨(claim_C2_amended_queue_emptied_under_lock ⟨false, [7], false⟩).1,
   (claim_C2_amended_queue_emptied_under_lock ⟨false, [7], false⟩).2.2.2
     ⟨true, [7], true⟩ ClearStep.callClear (by decide)⟩

/-- Claim C4 counterexample: `VOLUME NAN` is accepted (CPython
`float("NAN")` succeeds), answered `OK VOLUME nan`, and stores the
non-finite value NaN in both the output device gain and the persisted
option — so a VOLUME command can set a non-finite volume. -/
theorem claim_C4_counterexample :
    (processCommand sampleState "VOLUME NAN").1 = "OK VOLUME nan" ∧
    (processCommand sampleState "VOLUME NAN").2.output_db = PyFloat.nan ∧
    (processCommand sampleState "VOLUME NAN").2.output_volume = PyFloat.nan ∧
    PyFloat.nan.isFinite = false :=
  ⟨rfl, rfl, rfl, rfl⟩

/-- Claim C4 (amended): an accepted VOLUME argument stores exactly the
value `float(arg)` parsed, in both the device gain and the persisted
option; since `float` accepts the `nan`/`inf`/`infinity` literals
(case-insensitively, and the dispatcher uppercases the argument) and
over-range literals, the stored volume is finite if and only if the
argument parses to a finite value — finiteness is not an invariant of
accepted commands. -/
theorem claim_C4_amended_stored_equals_parsed (s : ServerState) (a : String)
    (v : PyFloat) (h : pyFloat? a = some v) :
    cmdVolume s a =
      .ok ("OK VOLUME " ++ v.pyStr, { s with output_db := v, output_volume := v }) ∧
    (({ s with output_db := v, output_volume := v } : ServerState).output_db.isFinite
      ↔ v.isFinite) := by
  have ha : a ≠ "" := by
    intro he
    rw [he, show pyFloat? "" = none from rfl] at h
    exact Option.noConfusion h
  unfold cmdVolume
  rw [if_neg ha, h]
  exact ⟨rfl, Iff.rfl⟩

/-- Witness for the amended C4 at a concrete input: `INF` parses to
positive infinity and is stored as such. -/
theorem claim_C4_amended_witness :
    cmdVolume sampleState "INF" =
      .ok ("OK VOLUME " ++ (PyFloat.inf false).pyStr,
           { sampleState with output_db := .inf false, output_volume := .inf false }) :=
  (claim_C4_amended_stored_equals_parsed sampleState "INF" (PyFloat.inf false) rfl).1

/-- A non-empty list all of whose characters are non-whitespace is
unchanged by stripping leading whitespace. -/
theorem dropWhile_space_eq_self {l : List Char} (hne : l ≠ [])
    (hall : l.all notSpace = true) : l.dropWhile isPySpace = l := by
  cases l with
  | nil => exact absurd rfl hne
  | cons c t =>
    rw [List.all_cons, Bool.and_eq_true] at hall
    rw [List.dropWhile_cons, if_neg]
    intro hsp
    rw [show isPySpace c = !(notSpace c) from by unfold notSpace; cases isPySpace c <;> rfl,
        hall.1] at hsp
    exact Bool.noConfusion hsp

/-- Splitting `MODE <m>` when `m` is a non-empty whitespace-free token:
the verb and the argument, exactly. -/
theorem pySplit1_MODE_arg (m : String) (hne : m.data ≠ [])
    (hall : m.data.all notSpace = true) :
    pySplit1 ("MODE " ++ m) = ["MODE", m] := by
  have key : ("MODE " ++ m).data = 'M' :: 'O' :: 'D' :: 'E' :: ' ' :: m.data := by
    rw [String.data_append]
    rfl
  have hdw : m.data.dropWhile isPySpace = m.data := dropWhile_space_eq_self hne hall
  unfold pySplit1
  rw [key]
  show (if m.data.dropWhile isPySpace = [] then [['M', 'O', 'D', 'E']]
        else [['M', 'O', 'D', 'E'], m.data.dropWhile isPySpace]).map
      (fun cs => (⟨cs⟩ : String)) = ["MODE", m]
  rw [hdw, if_neg hne]
  rfl

/-- Claim C5: for every mode name `m` in the configured valid-mode set
(the `Modems` enum names, which are uppercase identifiers — whence the
hypotheses that `m` is its own uppercase and whitespace-free), and
assuming the modem collaborator's `set_mode` succeeds and makes `m` the
current `modem_name`, the command `MODE m` answers `OK MODE m` and a
subsequent `MODE` with no argument answers `OK MODE m` again. -/
theorem claim_C5_mode_set_then_query (s : ServerState) (m : String)
    (hne : m ≠ "") (hall : m.data.all notSpace = true)
    (hu : pyUpper m = m) (hm : m ∈ s.valid_modes)
    (hexn : s.set_mode_exn = none) :
    (processCommand s ("MODE " ++ m)).1 = "OK MODE " ++ m ∧
    (processCommand (processCommand s ("MODE " ++ m)).2 "MODE").1 = "OK MODE " ++ m := by
  have hned : m.data ≠ [] := fun hd => hne (String.ext hd)
  have hud : m.data.map upChar = m.data := congrArg String.data hu
  have hup : pyUpper ("MODE " ++ m) = "MODE " ++ m := by
    apply String.ext
    rw [pyUpper_data, String.data_append, List.map_append, hud]
    rfl
  have heq : processCommand s ("MODE " ++ m) =
      ("OK MODE " ++ m, { s with modem_name := m, options_mode := m }) := by
    unfold processCommand
    rw [hup, pySplit1_MODE_arg m hned hall]
    show (match dispatch s "MODE" m with
          | .ok r => r
          | .error e => ("ERROR " ++ e, s)) =
      ("OK MODE " ++ m, { s with modem_name := m, options_mode := m })
    have hdisp : dispatch s "MODE" m =
        .ok ("OK MODE " ++ m, { s with modem_name := m, options_mode := m }) := by
      show cmdMode s m =
        .ok ("OK MODE " ++ m, { s with modem_name := m, options_mode := m })
      unfold cmdMode
      rw [if_neg hne, hu, if_neg (fun hc => hc hm), hexn]
    rw [hdisp]
  refine ⟨by rw [heq], ?_⟩
  rw [heq]
  rfl

/-- Witness for C5 at a concrete state and mode name. -/
theorem claim_C5_witness :
    (processCommand sampleState ("MODE " ++ "DATAC3")).1 = "OK MODE " ++ "DATAC3" ∧
    (processCommand (processCommand sampleState ("MODE " ++ "DATAC3")).2 "MODE").1 =
      "OK MODE " ++ "DATAC3" :=
  claim_C5_mode_set_then_query sampleState "DATAC3" (by decide) (by decide)
    (by rfl) (by decide) rfl

/-- Claim C6: a non-empty MODE argument whose uppercased form (the
comparison the spec fixes as case-insensitive) is not a member of the
valid-mode set is answered with an ERROR whose text enumerates exactly
the configured valid-mode set, and the collaborator state — the modem's
current mode and the persisted options included — is returned
unchanged. -/
theorem claim_C6_invalid_mode_error_and_unchanged (s : ServerState) (a : String)
    (hne : a ≠ "") (hnm : pyUpper a ∉ s.valid_modes) :
    cmdMode s a =
      .ok ("ERROR Invalid mode. Valid: " ++ joinModes s.valid_modes, s) := by
  unfold cmdMode
  rw [if_neg hne, if_pos hnm]

/-- Witness for C6: `BOGUS` is rejected against the sample mode set and
the state is unchanged. -/
theorem claim_C6_witness :
    cmdMode sampleState "BOGUS" =
      .ok ("ERROR Invalid mode. Valid: " ++ joinModes sampleState.valid_modes,
           sampleState) :=
  claim_C6_invalid_mode_error_and_unchanged sampleState "BOGUS" (by decide) (by decide)

/-- Claim C7: a non-empty VOLUME argument that `float()` rejects is
answered with the fixed error message and the collaborator state — the
output gain and the persisted output-volume option included — is
returned unchanged; and for the numeric argument `-6.5`, `VOLUME -6.5`
answers `OK VOLUME -6.5` and a subsequent bare `VOLUME` answers
`OK VOLUME -6.5` again. -/
theorem claim_C7_volume_error_and_echo (s : ServerState) (a : String)
    (hne : a ≠ "") (hpf : pyFloat? a = none) :
    cmdVolume s a = .ok ("ERROR Invalid volume (must be number in dB)", s) ∧
    (processCommand s "VOLUME -6.5").1 = "OK VOLUME -6.5" ∧
    (processCommand (processCommand s "VOLUME -6.5").2 "VOLUME").1 =
      "OK VOLUME -6.5" := by
  refine ⟨?_, rfl, rfl⟩
  unfold cmdVolume
  rw [if_neg hne, hpf]

/-- Witness for C7: `ABC` does not parse and leaves the state unchanged. -/
theorem claim_C7_witness :
    cmdVolume sampleState "ABC" =
      .ok ("ERROR Invalid volume (must be number in dB)", sampleState) :=
  (claim_C7_volume_error_and_echo sampleState "ABC" (by decide) rfl).1

/-- The STATUS line as §6 of the spec words it: a single `OK` line with
the five fields `MODE`, `VOLUME`, `FOLLOW`, `PTT`, `CHANNEL` in exactly
that order, `PTT` showing `OFF` and `CHANNEL` showing `CLEAR` whenever
the output device does not expose the `ptt` / `inhibit` attribute. -/
def statusSpecLine (s : ServerState) : String :=
  "OK STATUS MODE=" ++ s.modem_name
    ++ " VOLUME=" ++ s.output_volume.pyStr
    ++ " FOLLOW=" ++ (if s.follow then "ON" else "OFF")
    ++ " PTT=" ++ (match s.ptt with
                   | none => "OFF"
                   | some b => if b then "ON" else "OFF")
    ++ " CHANNEL=" ++ (match s.inhibit with
                       | none => "CLEAR"
                       | some b => if b then "BUSY" else "CLEAR")

/-- Claim C8: for every collaborator state, STATUS answers exactly the
single `OK` line of the spec's format — all five fields in order — and in
particular, when the device exposes neither `ptt` nor `inhibit`, the line
ends in the defaults `PTT=OFF CHANNEL=CLEAR`. -/
theorem claim_C8_status_fields_and_defaults (s : ServerState) :
    cmdStatus s = .ok (statusSpecLine s, s) ∧
    (s.ptt = none → s.inhibit = none →
      cmdStatus s = .ok ("OK STATUS MODE=" ++ s.modem_name
        ++ " VOLUME=" ++ s.output_volume.pyStr
        ++ " FOLLOW=" ++ (if s.follow then "ON" else "OFF")
        ++ " PTT=OFF CHANNEL=CLEAR", s)) := by
  constructor
  · unfold cmdStatus statusSpecLine
    rcases hp : s.ptt with _ | b <;> rcases hi : s.inhibit with _ | b2 <;> rfl
  · intro hp hi
    unfold cmdStatus
    rw [hp, hi]
    simp only [String.append_assoc]
    rfl

/-- Witness for C8's default clause at a concrete state exposing neither
attribute. -/
theorem claim_C8_witness :
    cmdStatus sampleState = .ok ("OK STATUS MODE=" ++ sampleState.modem_name
      ++ " VOLUME=" ++ sampleState.output_volume.pyStr
      ++ " FOLLOW=" ++ (if sampleState.follow then "ON" else "OFF")
      ++ " PTT=OFF CHANNEL=CLEAR", sampleState) :=
  (claim_C8_status_fields_and_defaults sampleState).2 rfl rfl

/-- Claim C9: when the file write succeeds, SAVE answers
`OK SAVE <path>` with the fixed per-user path `~/.freedvtnc2.conf`, and
the file written holds one line per option item whose key is not the
reserved config-file-path key `"c"`, each line carrying the hyphenated
key and the stringified value (`None` as the empty string); the `"c"`
key is never among the serialized keys. -/
theorem claim_C9_save_serialization (s : ServerState) (hs : s.save_exn = none) :
    cmdSave s = .ok ("OK SAVE " ++ savePath s,
      { s with saved_file := some (savePath s, savedContents s) }) ∧
    savePath s = s.home ++ "/.freedvtnc2.conf" ∧
    (∀ kv, kv ∈ optionsItems s → kv.1 ≠ "c" → configLine kv ∈ serializedLines s) ∧
    (∀ k, k ∈ ((optionsItems s).filter (fun kv => kv.1 ≠ "c")).map
        (fun kv => kv.1) → k ≠ "c") := by
  refine ⟨?_, rfl, ?_, ?_⟩
  · unfold cmdSave
    rw [hs]
  · intro kv hkv hne
    unfold serializedLines
    exact List.mem_map_of_mem configLine
      (List.mem_filter.mpr ⟨hkv, by simp [hne]⟩)
  · intro k hk
    obtain ⟨kv, hkv, rfl⟩ := List.mem_map.mp hk
    have := (List.mem_filter.mp hkv).2
    simpa using this

/-- Witness for C9 at a concrete state (whose options include the
reserved key `"c"`, a hyphenatable key and a `None` value). -/
theorem claim_C9_witness :
    cmdSave sampleState = .ok ("OK SAVE " ++ savePath sampleState,
      { sampleState with
          saved_file := some (savePath sampleState, savedContents sampleState) }) ∧
    configLine ("log_level", none) ∈ serializedLines sampleState :=
  ⟨(claim_C9_save_serialization sampleState rfl).1,
   (claim_C9_save_serialization sampleState rfl).2.2.1 ("log_level", none)
     (by decide) (by decide)⟩

end FreeDVTNC2
